import Mathlib

/-!
Verification of the engagement-activity pipeline of the HubSpot MCP server
(`src/mcp_server_hubspot/server.py`).

The development shallowly embeds the two core components:

* the Temporal Normalizer `convert_datetime_fields`, which recursively walks a
  nested Python value and replaces `datetime` / `tzlocal` objects by strings;
* the Activity Aggregator `HubSpotClient.get_company_activity`, which fetches a
  page of company-to-engagement association links, hydrates each engagement via
  a raw API request, builds a type-dependent summary for each, normalizes the
  result and serializes it with `json.dumps`.

Python values are modelled by the inductive type `PyVal`; a `datetime` object
is modelled as the constructor `PyVal.dt` carrying the string its `isoformat()`
method would produce.  Python exceptions are modelled with `Except String`,
the `String` being the exception's `str(e)` message; the external CRM client
calls are parameters of type `_ → Except String _`.
-/

/-- Model of the Python values that flow through the server: JSON-like data
(`None`, booleans, integers, strings, lists, dicts with string keys) plus
`datetime.datetime` objects (carrying their `isoformat()` string) and
`dateutil.tz.tzlocal` timezone objects. -/
inductive PyVal where
  | none
  | bool (b : Bool)
  | int (n : Int)
  | str (s : String)
  | dt (iso : String)
  | tzlocal
  | list (xs : List PyVal)
  | dict (kvs : List (String × PyVal))
deriving Repr

mutual

/-- Boolean equality on `PyVal` (the automatic `DecidableEq` derivation does
not handle this nested inductive, so equality is programmed by hand; the
theorem `PyVal.beq_iff` below shows it decides propositional equality).  This
also embeds Python's `==` as used in `engagement_data.get("type") == "NOTE"`
and the following `elif` conditions. -/
def PyVal.beq : PyVal → PyVal → Bool
  | .none, .none => true
  | .bool a, .bool b => a == b
  | .int a, .int b => a == b
  | .str a, .str b => a == b
  | .dt a, .dt b => a == b
  | .tzlocal, .tzlocal => true
  | .list xs, .list ys => beqList xs ys
  | .dict xs, .dict ys => beqDict xs ys
  | _, _ => false

/-- Element-wise `PyVal.beq` on lists. -/
def beqList : List PyVal → List PyVal → Bool
  | [], [] => true
  | x :: xs, y :: ys => PyVal.beq x y && beqList xs ys
  | _, _ => false

/-- Entry-wise `PyVal.beq` on dict entry lists. -/
def beqDict : List (String × PyVal) → List (String × PyVal) → Bool
  | [], [] => true
  | (k, v) :: xs, (k', v') :: ys => k == k' && PyVal.beq v v' && beqDict xs ys
  | _, _ => false

end

/- ---------------------------------------------------------------------------
Temporal Normalizer: `convert_datetime_fields` (server.py lines 19-31).

The `tzlocal` branch of the source formats the *current* local UTC offset,
obtained as `datetime.now(tzlocal()).strftime('%z')` (a string like "+0800"),
into the form `UTC+08:00`.  That ambient offset string is the explicit
parameter `off` here.
--------------------------------------------------------------------------- -/

mutual

/-- Embedding of `convert_datetime_fields`: dicts and lists are rebuilt with
every member converted recursively, a `datetime` becomes its `isoformat()`
string, a `tzlocal` becomes `"UTC" ++ off[:3] ++ ":" ++ off[3:]` for the
current offset string `off`, and every other value is returned unchanged. -/
def convert_datetime_fields (off : String) : PyVal → PyVal
  | .dict kvs => .dict (convertDict off kvs)
  | .list xs => .list (convertList off xs)
  | .dt iso => .str iso
  | .tzlocal => .str ("UTC" ++ off.take 3 ++ ":" ++ off.drop 3)
  | v => v

/-- The list comprehension `[convert_datetime_fields(item) for item in obj]`. -/
def convertList (off : String) : List PyVal → List PyVal
  | [] => []
  | x :: xs => convert_datetime_fields off x :: convertList off xs

/-- The dict comprehension over `obj.items()` (keys unchanged, values
converted recursively). -/
def convertDict (off : String) : List (String × PyVal) → List (String × PyVal)
  | [] => []
  | (k, v) :: kvs => (k, convert_datetime_fields off v) :: convertDict off kvs

end

/- ---------------------------------------------------------------------------
Python dict / iteration primitives used by `get_company_activity`.
--------------------------------------------------------------------------- -/

/-- Lookup of a key in a dict's entry list (Python dicts have unique keys;
entry order is insertion order, and the first match is returned). -/
def lookupKey (kvs : List (String × PyVal)) (k : String) : Option PyVal :=
  match kvs with
  | [] => Option.none
  | (k', v) :: rest => if k' = k then some v else lookupKey rest k

/-- Lookup of a key in a `PyVal`, yielding `Option.none` on non-dicts or when
the key is absent.  This is a specification-side observation helper, not a
piece of the translated program. -/
def PyVal.lookup (v : PyVal) (k : String) : Option PyVal :=
  match v with
  | .dict kvs => lookupKey kvs k
  | _ => Option.none

/-- Python's `obj.get(key, default)`: on a dict it returns the stored value
(which may itself be `None`) or the default when the key is absent; on any
other value the attribute access raises `AttributeError`, modelled as an
`Except.error`. -/
def PyVal.get : PyVal → String → PyVal → Except String PyVal
  | .dict kvs, k, dflt => .ok ((lookupKey kvs k).getD dflt)
  | _, _, _ => .error "AttributeError: object has no attribute get"

/-- Python iteration (`for x in obj`): a list yields its elements, a dict its
keys, a string its characters (as one-character strings); any other value
raises `TypeError`. -/
def PyVal.iterate : PyVal → Except String (List PyVal)
  | .list xs => .ok xs
  | .dict kvs => .ok (kvs.map (fun kv => .str kv.1))
  | .str s => .ok (s.data.map (fun c => .str (String.mk [c])))
  | _ => .error "TypeError: object is not iterable"

/-- Python truthiness of a value, as used by the `or` in
`metadata.get("text", "") or metadata.get("html", "")`. -/
def pyTruthy : PyVal → Bool
  | .none => false
  | .bool b => b
  | .int n => n != 0
  | .str s => decide (s ≠ "")
  | .dt _ => true
  | .tzlocal => true
  | .list xs => !xs.isEmpty
  | .dict kvs => !kvs.isEmpty

/- ---------------------------------------------------------------------------
Model of `json.dumps` with its default arguments (separators `", "` and
`": "`, `ensure_ascii=True`): ASCII output with `\uXXXX` escapes, raising
`TypeError` on `datetime`/`tzlocal` objects (which is exactly why
`convert_datetime_fields` runs first).  Literal braces in strings are written
with the escapes `\x7b` / `\x7d`.
--------------------------------------------------------------------------- -/

/-- Lowercase hexadecimal digit for `n < 16`. -/
def hexDigit (n : Nat) : Char :=
  if n < 10 then Char.ofNat (48 + n) else Char.ofNat (87 + n)

/-- Four lowercase hexadecimal digits, for `\uXXXX` escapes. -/
def hex4 (n : Nat) : String :=
  String.mk [hexDigit (n / 4096 % 16), hexDigit (n / 256 % 16),
    hexDigit (n / 16 % 16), hexDigit (n % 16)]

/-- The `json.dumps` (`ensure_ascii=True`) escape of a single character:
named escapes for quote, backslash and common control characters, `\uXXXX`
for other control or non-ASCII characters (surrogate pairs beyond the BMP),
and the character itself otherwise. -/
def escapeChar (c : Char) : String :=
  if c = '"' then "\\\""
  else if c = '\\' then "\\\\"
  else if c = '\n' then "\\n"
  else if c = '\r' then "\\r"
  else if c = '\t' then "\\t"
  else if c.toNat = 8 then "\\b"
  else if c.toNat = 12 then "\\f"
  else if c.toNat < 32 ∨ 126 < c.toNat then
    if c.toNat ≤ 65535 then "\\u" ++ hex4 c.toNat
    else
      let v := c.toNat - 65536
      "\\u" ++ hex4 (55296 + v / 1024) ++ "\\u" ++ hex4 (56320 + v % 1024)
  else String.mk [c]

/-- Character-list version of the JSON string escape. -/
def escList : List Char → List Char
  | [] => []
  | c :: cs => (escapeChar c).data ++ escList cs

/-- JSON escape of a string's contents (without the surrounding quotes). -/
def jsonEscape (s : String) : String := String.mk (escList s.data)

/-- A JSON string literal: surrounding quotes plus escaped contents. -/
def quoteStr (s : String) : String := "\"" ++ jsonEscape s ++ "\""

mutual

/-- Embedding of `json.dumps` with default arguments.  `datetime` and
`tzlocal` objects are not JSON serializable and raise `TypeError`. -/
def dumps : PyVal → Except String String
  | .none => .ok "null"
  | .bool true => .ok "true"
  | .bool false => .ok "false"
  | .int n => .ok (toString n)
  | .str s => .ok (quoteStr s)
  | .dt _ => .error "TypeError: Object of type datetime is not JSON serializable"
  | .tzlocal => .error "TypeError: Object of type tzlocal is not JSON serializable"
  | .list xs =>
    match dumpsList xs with
    | .error e => .error e
    | .ok parts => .ok ("[" ++ String.intercalate ", " parts ++ "]")
  | .dict kvs =>
    match dumpsDict kvs with
    | .error e => .error e
    | .ok parts => .ok ("\x7b" ++ String.intercalate ", " parts ++ "\x7d")

/-- Serialization of the elements of a JSON array. -/
def dumpsList : List PyVal → Except String (List String)
  | [] => .ok []
  | x :: xs =>
    match dumps x with
    | .error e => .error e
    | .ok s =>
      match dumpsList xs with
      | .error e => .error e
      | .ok rest => .ok (s :: rest)

/-- Serialization of the entries of a JSON object (`"key": value`). -/
def dumpsDict : List (String × PyVal) → Except String (List String)
  | [] => .ok []
  | (k, v) :: kvs =>
    match dumps v with
    | .error e => .error e
    | .ok s =>
      match dumpsDict kvs with
      | .error e => .error e
      | .ok rest => .ok ((quoteStr k ++ ": " ++ s) :: rest)

end

/-- The string produced by the `except` branches of `get_company_activity`:
`json.dumps` applied to the one-entry dict mapping "error" to the exception
message `msg`.  The theorem `dumps_error_dict` below checks that this is
literally what `dumps` returns on that dict. -/
def errorString (msg : String) : String :=
  "\x7b" ++ (quoteStr "error" ++ ": " ++ quoteStr msg) ++ "\x7d"

/- ---------------------------------------------------------------------------
Activity Aggregator: `HubSpotClient.get_company_activity`
(server.py lines 71-183).
--------------------------------------------------------------------------- -/

/-- One entry of the CRM associations page: the SDK result object, of which
the code reads only `to_object_id`. -/
structure AssocResult where
  to_object_id : String
deriving Repr, DecidableEq

/-- The CRM associations page returned by the association-listing capability
(`crm.associations.v4.basic_api.get_page`).  `results = Option.none` models a
response object without a `results` attribute — the code guards with
`hasattr(associated_engagements, 'results')`. -/
structure AssocResponse where
  results : Option (List AssocResult)
deriving Repr, DecidableEq

/-- Engagement-id extraction (server.py lines 84-87): the ids of the page's
results in source order (duplicates kept), or the empty list when the
response has no `results` attribute. -/
def engagementIds (resp : AssocResponse) : List String :=
  match resp.results with
  | some rs => rs.map AssocResult.to_object_id
  | Option.none => []

/-- Recipient formatting (server.py lines 124-141): each of the `to`/`cc`/
`bcc` comprehensions builds, per source recipient, a dict with exactly the
keys `raw`, `email`, `firstName`, `lastName`, each defaulting to the empty
string. -/
def formatRecipient (recipient : PyVal) : Except String PyVal := do
  let raw ← recipient.get "raw" (.str "")
  let email ← recipient.get "email" (.str "")
  let firstName ← recipient.get "firstName" (.str "")
  let lastName ← recipient.get "lastName" (.str "")
  pure (.dict [("raw", raw), ("email", email), ("firstName", firstName),
    ("lastName", lastName)])

/-- One `to`/`cc`/`bcc` list comprehension: fetch `metadata.get(key, [])`,
iterate it, and format every recipient in source order. -/
def recipientList (metadata : PyVal) (key : String) : Except String (List PyVal) := do
  let src ← metadata.get key (.list [])
  let items ← src.iterate
  items.mapM formatRecipient

/-- The EMAIL content dict (server.py lines 116-146).  The source re-evaluates
`metadata.get("from", {})` for each of the four `from` fields; the calls are
pure and identical, so the value is bound once here.  Likewise the `or` in the
`body` field only evaluates `metadata.get("html", "")` when the text value is
falsy, but at that point `metadata` is already known to be a dict (the
`subject` access succeeded), so the unconditional bind cannot introduce an
error the source would not raise. -/
def emailContent (metadata : PyVal) : Except String PyVal := do
  let subject ← metadata.get "subject" (.str "")
  let fromObj ← metadata.get "from" (.dict [])
  let fromRaw ← fromObj.get "raw" (.str "")
  let fromEmail ← fromObj.get "email" (.str "")
  let fromFirst ← fromObj.get "firstName" (.str "")
  let fromLast ← fromObj.get "lastName" (.str "")
  let toL ← recipientList metadata "to"
  let ccL ← recipientList metadata "cc"
  let bccL ← recipientList metadata "bcc"
  let senderObj ← metadata.get "sender" (.dict [])
  let senderEmail ← senderObj.get "email" (.str "")
  let textVal ← metadata.get "text" (.str "")
  let htmlVal ← metadata.get "html" (.str "")
  pure (.dict [
    ("subject", subject),
    ("from", .dict [("raw", fromRaw), ("email", fromEmail),
      ("firstName", fromFirst), ("lastName", fromLast)]),
    ("to", .list toL),
    ("cc", .list ccL),
    ("bcc", .list bccL),
    ("sender", .dict [("email", senderEmail)]),
    ("body", if pyTruthy textVal then textVal else htmlVal)])

/-- The TASK content dict (server.py lines 148-153). -/
def taskContent (metadata : PyVal) : Except String PyVal := do
  let subject ← metadata.get "subject" (.str "")
  let body ← metadata.get "body" (.str "")
  let status ← metadata.get "status" (.str "")
  let forObjectType ← metadata.get "forObjectType" (.str "")
  pure (.dict [("subject", subject), ("body", body), ("status", status),
    ("for_object_type", forObjectType)])

/-- The MEETING content dict (server.py lines 155-161); `startTime` and
`endTime` have no default, so an absent key yields `None`. -/
def meetingContent (metadata : PyVal) : Except String PyVal := do
  let title ← metadata.get "title" (.str "")
  let body ← metadata.get "body" (.str "")
  let startTime ← metadata.get "startTime" .none
  let endTime ← metadata.get "endTime" .none
  let notes ← metadata.get "internalMeetingNotes" (.str "")
  pure (.dict [("title", title), ("body", body), ("start_time", startTime),
    ("end_time", endTime), ("internal_notes", notes)])

/-- The CALL content dict (server.py lines 163-170); `durationMilliseconds`
has no default, so an absent key yields `None`. -/
def callContent (metadata : PyVal) : Except String PyVal := do
  let body ← metadata.get "body" (.str "")
  let fromNumber ← metadata.get "fromNumber" (.str "")
  let toNumber ← metadata.get "toNumber" (.str "")
  let duration ← metadata.get "durationMilliseconds" .none
  let status ← metadata.get "status" (.str "")
  let disposition ← metadata.get "disposition" (.str "")
  pure (.dict [("body", body), ("from_number", fromNumber),
    ("to_number", toNumber), ("duration_ms", duration), ("status", status),
    ("disposition", disposition)])

/-- The shared fields of a formatted engagement (server.py lines 101-110), in
the source's dict-literal order.  Every field is a `dict.get` with default
`None` on `engagement_data`, except `associations`, read from the top-level
response with default `{}`. -/
def sharedFields (engagement_response engagement_data : PyVal) :
    Except String (List (String × PyVal)) := do
  let i ← engagement_data.get "id" .none
  let ty ← engagement_data.get "type" .none
  let createdAt ← engagement_data.get "createdAt" .none
  let lastUpdated ← engagement_data.get "lastUpdated" .none
  let createdBy ← engagement_data.get "createdBy" .none
  let modifiedBy ← engagement_data.get "modifiedBy" .none
  let timestamp ← engagement_data.get "timestamp" .none
  let assoc ← engagement_response.get "associations" (.dict [])
  pure [("id", i), ("type", ty), ("created_at", createdAt),
    ("last_updated", lastUpdated), ("created_by", createdBy),
    ("modified_by", modifiedBy), ("timestamp", timestamp),
    ("associations", assoc)]

/-- The `if/elif` chain on `engagement_data.get("type")` (server.py lines
113-170): `some content` when one of the five known types matches — the
Python `==` against a string literal is value equality, embedded as
`PyVal.beq` — and `Option.none` (no `content` key) otherwise. -/
def contentFor (ty metadata : PyVal) : Except String (Option PyVal) :=
  if PyVal.beq ty (.str "NOTE") then do
    pure (some (← metadata.get "body" (.str "")))
  else if PyVal.beq ty (.str "EMAIL") then do
    pure (some (← emailContent metadata))
  else if PyVal.beq ty (.str "TASK") then do
    pure (some (← taskContent metadata))
  else if PyVal.beq ty (.str "MEETING") then do
    pure (some (← meetingContent metadata))
  else if PyVal.beq ty (.str "CALL") then do
    pure (some (← callContent metadata))
  else pure Option.none

/-- Formatting of one engagement detail response (server.py lines 97-172):
extract the `engagement` and `metadata` sections (default `{}`), build the
shared fields, then append a `content` entry when the type is recognized.
The source calls `engagement_data.get("type")` once in the dict literal and
once per `elif`; the calls are pure and identical so the value is bound once
(it also appears inside `sharedFields`). -/
def formatEngagement (engagement_response : PyVal) : Except String PyVal := do
  let engagement_data ← engagement_response.get "engagement" (.dict [])
  let metadata ← engagement_response.get "metadata" (.dict [])
  let shared ← sharedFields engagement_response engagement_data
  let ty ← engagement_data.get "type" .none
  let c ← contentFor ty metadata
  match c with
  | some content => pure (.dict (shared ++ [("content", content)]))
  | Option.none => pure (.dict shared)

/-- Detail fetch plus formatting for one engagement id: the body of the `for`
loop (server.py lines 91-172).  `detailFetch` models the parsed JSON body of
the raw API request `GET /engagements/v1/engagements/` for the given id. -/
def fetchAndFormat (detailFetch : String → Except String PyVal)
    (engagement_id : String) : Except String PyVal := do
  let resp ← detailFetch engagement_id
  formatEngagement resp

/-- The `try` body of `get_company_activity`: association fetch, id
extraction, sequential per-id hydration and formatting (aborting on the first
failure, exactly as an uncaught exception aborts the Python loop and discards
the local `activities` list), temporal normalization of the accumulated list,
and serialization. -/
def activityBody (assocFetch : String → Except String AssocResponse)
    (detailFetch : String → Except String PyVal) (off : String)
    (company_id : String) : Except String String := do
  let associated_engagements ← assocFetch company_id
  let activities ← (engagementIds associated_engagements).mapM (fetchAndFormat detailFetch)
  dumps (convert_datetime_fields off (.list activities))

/-- Embedding of `HubSpotClient.get_company_activity`: run the `try` body;
any exception is caught (both `except ApiException` and the catch-all
`except Exception` produce the same value) and turned into
`json.dumps` of the one-key error dict, which is `errorString e` (see
`dumps_error_dict`).  The operation itself is a total function: it never
raises past its own boundary. -/
def get_company_activity (assocFetch : String → Except String AssocResponse)
    (detailFetch : String → Except String PyVal) (off : String)
    (company_id : String) : String :=
  match activityBody assocFetch detailFetch off company_id with
  | .ok s => s
  | .error e => errorString e

/- ---------------------------------------------------------------------------
Observation helpers and concrete inputs used by the claims below.
--------------------------------------------------------------------------- -/

/-- The engagement type of a detail response, read the way the source reads
it: the `type` member (default `None`) of the response's `engagement` section
(default `{}`). -/
def engType (resp : PyVal) : Except String PyVal := do
  let engagement_data ← resp.get "engagement" (.dict [])
  engagement_data.get "type" .none

/-- The eight shared summary keys, in the source's dict-literal order. -/
def sharedKeyNames : List String :=
  ["id", "type", "created_at", "last_updated", "created_by", "modified_by",
   "timestamp", "associations"]

/-- The EMAIL content produced for a completely empty metadata dict: every
field at its default (empty string / empty list). -/
def emailEmptyDefault : PyVal := .dict [
  ("subject", .str ""),
  ("from", .dict [("raw", .str ""), ("email", .str ""), ("firstName", .str ""),
    ("lastName", .str "")]),
  ("to", .list []),
  ("cc", .list []),
  ("bcc", .list []),
  ("sender", .dict [("email", .str "")]),
  ("body", .str "")]

/-- A value shaped like the formatted recipients the EMAIL branch emits: a
dict with exactly the keys `raw`, `email`, `firstName`, `lastName`. -/
def isRecipientShape (v : PyVal) : Prop :=
  ∃ a b c d, v = .dict [("raw", a), ("email", b), ("firstName", c), ("lastName", d)]

/-- An association capability that raises an exception whose message is the
empty string (Python `str(e)` of a bare `Exception()` is the empty string). -/
def cexAssoc : String → Except String AssocResponse := fun _ => .error ""

/-- A detail-fetch capability that always raises (never reached when the
association fetch already raises). -/
def cexDetail : String → Except String PyVal := fun _ => .error "unused"

/-- An association capability that raises with message "boom". -/
def assocBoom : String → Except String AssocResponse := fun _ => .error "boom"

/-- An EMAIL engagement detail response with no metadata section at all. -/
def respEmailEmpty : PyVal := .dict [("engagement", .dict [("type", .str "EMAIL")])]

/-- The summary built for `respEmailEmpty`. -/
def outEmailEmpty : PyVal := .dict [
  ("id", .none), ("type", .str "EMAIL"), ("created_at", .none),
  ("last_updated", .none), ("created_by", .none), ("modified_by", .none),
  ("timestamp", .none), ("associations", .dict []),
  ("content", emailEmptyDefault)]

/-- A detail response with an unrecognized engagement type. -/
def respUnknown : PyVal :=
  .dict [("engagement", .dict [("type", .str "UNKNOWN_X"), ("id", .str "e1")])]

/-- The summary built for `respUnknown`: shared fields only, no content. -/
def outUnknown : PyVal := .dict [
  ("id", .str "e1"), ("type", .str "UNKNOWN_X"), ("created_at", .none),
  ("last_updated", .none), ("created_by", .none), ("modified_by", .none),
  ("timestamp", .none), ("associations", .dict [])]

/-- An association page with two linked engagements "a" and "b". -/
def assocAB : String → Except String AssocResponse :=
  fun _ => .ok ⟨some [⟨"a"⟩, ⟨"b"⟩]⟩

/-- A detail capability for which engagement "a" hydrates fine and "b"
raises. -/
def detailBoomB : String → Except String PyVal :=
  fun i => if i = "a" then .ok (.dict []) else .error "boom"

/-- An association page whose response object has no `results` attribute. -/
def assocNoResults : String → Except String AssocResponse :=
  fun _ => .ok ⟨Option.none⟩

/-- An EMAIL detail response whose metadata holds two `to` recipients: one
carrying `raw` and `firstName` fields, and one whose `raw` field is the
integer 5 rather than a string. -/
def respRecipient : PyVal := .dict [
  ("engagement", .dict [("type", .str "EMAIL")]),
  ("metadata", .dict [("to", .list [
    .dict [("raw", .str "a@b.c"), ("firstName", .str "Ann")],
    .dict [("raw", .int 5)]])])]

/-- The first recipient dict the EMAIL branch builds for `respRecipient`: its
keys are `raw`, `email`, `firstName`, `lastName` — camelCase, not
snake_case. -/
def builtRecipient : PyVal := .dict [("raw", .str "a@b.c"), ("email", .str ""),
  ("firstName", .str "Ann"), ("lastName", .str "")]

/-- The second recipient dict the EMAIL branch builds for `respRecipient`:
its `raw` value is the source's integer 5, passed through untouched — the
built attribute values need not be strings. -/
def builtRecipient2 : PyVal := .dict [("raw", .int 5), ("email", .str ""),
  ("firstName", .str ""), ("lastName", .str "")]

/-- The summary built for `respRecipient`. -/
def outRecipient : PyVal := .dict [
  ("id", .none), ("type", .str "EMAIL"), ("created_at", .none),
  ("last_updated", .none), ("created_by", .none), ("modified_by", .none),
  ("timestamp", .none), ("associations", .dict []),
  ("content", .dict [
    ("subject", .str ""),
    ("from", .dict [("raw", .str ""), ("email", .str ""),
      ("firstName", .str ""), ("lastName", .str "")]),
    ("to", .list [builtRecipient, builtRecipient2]),
    ("cc", .list []),
    ("bcc", .list []),
    ("sender", .dict [("email", .str "")]),
    ("body", .str "")])]

/-- A detail response whose `engagement` section is a string, not a dict. -/
def respBadEngagement : PyVal := .dict [("engagement", .str "oops")]

/-- An email metadata dict with a present-but-empty `text` and a non-empty
`html`. -/
def mdEmptyText : PyVal := .dict [("text", .str ""), ("html", .str "h")]

/-- The EMAIL content built for `mdEmptyText`: the body is the `html` value,
although `text` is present. -/
def outEmptyText : PyVal := .dict [
  ("subject", .str ""),
  ("from", .dict [("raw", .str ""), ("email", .str ""), ("firstName", .str ""),
    ("lastName", .str "")]),
  ("to", .list []),
  ("cc", .list []),
  ("bcc", .list []),
  ("sender", .dict [("email", .str "")]),
  ("body", .str "h")]

/-- An email metadata dict with a non-empty `text`. -/
def mdWithText : PyVal := .dict [("text", .str "T")]

/-- The EMAIL content built for `mdWithText`. -/
def outWithText : PyVal := .dict [
  ("subject", .str ""),
  ("from", .dict [("raw", .str ""), ("email", .str ""), ("firstName", .str ""),
    ("lastName", .str "")]),
  ("to", .list []),
  ("cc", .list []),
  ("bcc", .list []),
  ("sender", .dict [("email", .str "")]),
  ("body", .str "T")]

/- ---------------------------------------------------------------------------
General lemmas about the embedding.
--------------------------------------------------------------------------- -/

mutual

theorem PyVal.beq_iff (a b : PyVal) : PyVal.beq a b = true ↔ a = b := by
  cases a with
  | list xs =>
    cases b <;> simp [PyVal.beq]
    exact beqList_iff xs _
  | dict xs =>
    cases b <;> simp [PyVal.beq]
    exact beqDict_iff xs _
  | _ => cases b <;> simp [PyVal.beq]

theorem beqList_iff (xs ys : List PyVal) : beqList xs ys = true ↔ xs = ys := by
  cases xs with
  | nil => cases ys <;> simp [beqList]
  | cons x xs =>
    cases ys with
    | nil => simp [beqList]
    | cons y ys => simp [beqList, PyVal.beq_iff x y, beqList_iff xs ys]

theorem beqDict_iff (xs ys : List (String × PyVal)) : beqDict xs ys = true ↔ xs = ys := by
  cases xs with
  | nil => cases ys <;> simp [beqDict]
  | cons kv xs =>
    cases ys with
    | nil => cases kv; simp [beqDict]
    | cons kv' ys =>
      cases kv with
      | mk k v =>
        cases kv' with
        | mk k' v' =>
          simp [beqDict, PyVal.beq_iff v v', beqDict_iff xs ys, and_assoc]

end

theorem PyVal.beq_eq_false {a b : PyVal} (h : a ≠ b) : PyVal.beq a b = false := by
  cases hb : PyVal.beq a b
  · rfl
  · exact absurd ((PyVal.beq_iff a b).mp hb) h

theorem ok_bind {α β : Type} (a : α) (f : α → Except String β) :
    (Except.ok a >>= f) = f a := rfl

theorem error_bind {α β : Type} (e : String) (f : α → Except String β) :
    ((Except.error e : Except String α) >>= f) = Except.error e := rfl

theorem bind_eq_ok {α β : Type} {x : Except String α} {f : α → Except String β}
    {b : β} : (x >>= f) = .ok b ↔ ∃ a, x = .ok a ∧ f a = .ok b := by
  cases x <;> simp [ok_bind, error_bind]

theorem pure_eq_ok {α : Type} (a : α) : (pure a : Except String α) = .ok a := rfl

theorem data_append (a b : String) : (a ++ b).data = a.data ++ b.data := rfl

theorem mk_data (l : List Char) : (String.mk l).data = l := rfl

theorem len_app (a b : String) :
    (a ++ b).data.length = a.data.length + b.data.length := by
  simp [data_append]

/- ---------------------------------------------------------------------------
Idempotence of the Temporal Normalizer.  The two passes are even allowed to
run with different ambient local-offset strings (time may pass between
calls): the first pass already replaced every `datetime`/`tzlocal` by a
string, and strings are returned unchanged.
--------------------------------------------------------------------------- -/

mutual

theorem convert_idem (off off' : String) (v : PyVal) :
    convert_datetime_fields off' (convert_datetime_fields off v) =
      convert_datetime_fields off v := by
  cases v with
  | dict kvs => simp [convert_datetime_fields, convertDict_idem off off' kvs]
  | list xs => simp [convert_datetime_fields, convertList_idem off off' xs]
  | _ => simp [convert_datetime_fields]

theorem convertList_idem (off off' : String) (xs : List PyVal) :
    convertList off' (convertList off xs) = convertList off xs := by
  cases xs with
  | nil => simp [convertList]
  | cons x xs =>
    simp [convertList, convert_idem off off' x, convertList_idem off off' xs]

theorem convertDict_idem (off off' : String) (kvs : List (String × PyVal)) :
    convertDict off' (convertDict off kvs) = convertDict off kvs := by
  cases kvs with
  | nil => simp [convertDict]
  | cons kv kvs =>
    cases kv with
    | mk k v =>
      simp [convertDict, convert_idem off off' v, convertDict_idem off off' kvs]

end

/- ---------------------------------------------------------------------------
Success-shape inversion lemmas for the aggregator's stages.
--------------------------------------------------------------------------- -/

theorem sharedFields_ok_shape {resp ed : PyVal} {sf : List (String × PyVal)}
    (h : sharedFields resp ed = .ok sf) :
    ∃ i ty ca lu cb mb ts assoc,
      ed.get "type" .none = .ok ty ∧
      sf = [("id", i), ("type", ty), ("created_at", ca), ("last_updated", lu),
        ("created_by", cb), ("modified_by", mb), ("timestamp", ts),
        ("associations", assoc)] := by
  simp only [sharedFields, bind_eq_ok, pure_eq_ok, Except.ok.injEq] at h
  obtain ⟨i, hi, ty, hty, ca, hca, lu, hlu, cb, hcb, mb, hmb, ts, hts, assoc,
    hassoc, hsf⟩ := h
  exact ⟨i, ty, ca, lu, cb, mb, ts, assoc, hty, hsf.symm⟩

theorem formatEngagement_ok_shape {resp out : PyVal}
    (h : formatEngagement resp = .ok out) :
    ∃ ed md sf ty c,
      resp.get "engagement" (.dict []) = .ok ed ∧
      resp.get "metadata" (.dict []) = .ok md ∧
      sharedFields resp ed = .ok sf ∧
      ed.get "type" .none = .ok ty ∧
      contentFor ty md = .ok c ∧
      out = (match c with
        | some content => .dict (sf ++ [("content", content)])
        | Option.none => .dict sf) := by
  simp only [formatEngagement, bind_eq_ok] at h
  obtain ⟨ed, hed, md, hmd, sf, hsf, ty, hty, c, hc, hout⟩ := h
  refine ⟨ed, md, sf, ty, c, hed, hmd, hsf, hty, hc, ?_⟩
  cases c with
  | none => simp [pure_eq_ok] at hout; exact hout.symm
  | some content => simp [pure_eq_ok] at hout; exact hout.symm

theorem emailContent_ok_shape {md ec : PyVal} (h : emailContent md = .ok ec) :
    ∃ subject fr fe ff fl toL ccL bccL se textVal htmlVal,
      recipientList md "to" = .ok toL ∧
      recipientList md "cc" = .ok ccL ∧
      recipientList md "bcc" = .ok bccL ∧
      md.get "text" (.str "") = .ok textVal ∧
      md.get "html" (.str "") = .ok htmlVal ∧
      ec = .dict [
        ("subject", subject),
        ("from", .dict [("raw", fr), ("email", fe), ("firstName", ff),
          ("lastName", fl)]),
        ("to", .list toL),
        ("cc", .list ccL),
        ("bcc", .list bccL),
        ("sender", .dict [("email", se)]),
        ("body", if pyTruthy textVal then textVal else htmlVal)] := by
  simp only [emailContent, bind_eq_ok, pure_eq_ok, Except.ok.injEq] at h
  obtain ⟨subject, hs, fo, hfo, fr, hfr, fe, hfe, ff, hff, fl, hfl, toL, hto,
    ccL, hcc, bccL, hbcc, so, hso, se, hse, tv, htv, hv, hhv, hec⟩ := h
  exact ⟨subject, fr, fe, ff, fl, toL, ccL, bccL, se, tv, hv,
    hto, hcc, hbcc, htv, hhv, hec.symm⟩

theorem contentFor_unknown {ty md : PyVal}
    (h1 : ty ≠ .str "NOTE") (h2 : ty ≠ .str "EMAIL") (h3 : ty ≠ .str "TASK")
    (h4 : ty ≠ .str "MEETING") (h5 : ty ≠ .str "CALL") :
    contentFor ty md = .ok Option.none := by
  simp [contentFor, PyVal.beq_eq_false h1, PyVal.beq_eq_false h2,
    PyVal.beq_eq_false h3, PyVal.beq_eq_false h4, PyVal.beq_eq_false h5,
    pure_eq_ok]

theorem contentFor_email {md : PyVal} {c : Option PyVal} :
    contentFor (.str "EMAIL") md = .ok c ↔
      ∃ ec, emailContent md = .ok ec ∧ c = some ec := by
  cases he : emailContent md with
  | error e => simp [contentFor, PyVal.beq, he, error_bind, pure_eq_ok]
  | ok ec => simp [contentFor, PyVal.beq, he, ok_bind, pure_eq_ok, eq_comm]

/- ---------------------------------------------------------------------------
Lemmas about serialization and the error path.
--------------------------------------------------------------------------- -/

theorem dumps_error_dict (e : String) :
    dumps (.dict [("error", .str e)]) = .ok (errorString e) := rfl

theorem get_company_activity_of_error
    {assocFetch : String → Except String AssocResponse}
    {detailFetch : String → Except String PyVal} {off cid e : String}
    (h : activityBody assocFetch detailFetch off cid = .error e) :
    get_company_activity assocFetch detailFetch off cid = errorString e := by
  simp [get_company_activity, h]

theorem errorString_head (e : String) : (errorString e).data.head? = some '\x7b' := rfl

theorem dumps_list_ok_head {xs : List PyVal} {s : String}
    (h : dumps (.list xs) = .ok s) : s.data.head? = some '[' := by
  simp only [dumps] at h
  cases hd : dumpsList xs with
  | error e => rw [hd] at h; cases h
  | ok parts =>
    rw [hd] at h
    obtain rfl : ("[" ++ String.intercalate ", " parts ++ "]") = s :=
      (Except.ok.injEq _ _).mp h
    rfl

theorem errorString_ne_list_dump (e : String) {xs : List PyVal} {s : String}
    (h : dumps (.list xs) = .ok s) : errorString e ≠ s := by
  intro heq
  have h1 := errorString_head e
  rw [heq, dumps_list_ok_head h] at h1
  cases h1

theorem escapeChar_data_ne_nil (c : Char) : (escapeChar c).data ≠ [] := by
  unfold escapeChar
  split_ifs <;> intro h <;> exact List.noConfusion h

theorem escList_ne_nil (c : Char) (cs : List Char) : escList (c :: cs) ≠ [] := by
  simp [escList, escapeChar_data_ne_nil]

theorem errorString_inj_empty {m : String} (h : errorString m = errorString "") :
    m = "" := by
  have hd := congrArg (fun s => s.data.length) h
  simp only [errorString, quoteStr, jsonEscape, len_app, mk_data] at hd
  rw [show escList (("" : String).data) = [] from rfl] at hd
  simp at hd
  cases m with
  | mk l =>
    cases l with
    | nil => rfl
    | cons c cs => exact absurd hd (escList_ne_nil c cs)

/- ---------------------------------------------------------------------------
Lemmas about the sequential per-engagement loop.
--------------------------------------------------------------------------- -/

theorem mapM_error_of_first {f : String → Except String PyVal} {bad : String}
    {rest : List String} {e : String} (hbad : f bad = .error e) :
    ∀ pre : List String, (∀ x ∈ pre, ∃ v, f x = .ok v) →
      (pre ++ bad :: rest).mapM f = .error e := by
  intro pre
  induction pre with
  | nil =>
    intro _
    simp only [List.nil_append]
    rw [List.mapM_cons, hbad, error_bind]
  | cons x xs ih =>
    intro hall
    obtain ⟨v, hv⟩ := hall x (List.mem_cons_self x xs)
    simp only [List.cons_append]
    rw [List.mapM_cons, hv, ok_bind,
      ih (fun y hy => hall y (List.mem_cons_of_mem x hy)), error_bind]

theorem mapM_ok_mem {f : PyVal → Except String PyVal} :
    ∀ {l out : List PyVal}, l.mapM f = .ok out →
      ∀ v ∈ out, ∃ r, r ∈ l ∧ f r = .ok v := by
  intro l
  induction l with
  | nil =>
    intro out h v hv
    rw [List.mapM_nil] at h
    obtain rfl : ([] : List PyVal) = out := (Except.ok.injEq _ _).mp h
    cases hv
  | cons x xs ih =>
    intro out h v hv
    rw [List.mapM_cons] at h
    rw [bind_eq_ok] at h
    obtain ⟨y, hy, h⟩ := h
    rw [bind_eq_ok] at h
    obtain ⟨ys, hys, h⟩ := h
    obtain rfl : y :: ys = out := (Except.ok.injEq _ _).mp h
    rcases List.mem_cons.mp hv with rfl | hmem
    · exact ⟨x, List.mem_cons_self x xs, hy⟩
    · obtain ⟨r, hr, hfr⟩ := ih hys v hmem
      exact ⟨r, List.mem_cons_of_mem x hr, hfr⟩

theorem formatRecipient_shape {r v : PyVal} (h : formatRecipient r = .ok v) :
    isRecipientShape v := by
  simp only [formatRecipient, bind_eq_ok, pure_eq_ok, Except.ok.injEq] at h
  obtain ⟨a, _, b, _, c, _, d, _, hv⟩ := h
  exact ⟨a, b, c, d, hv.symm⟩

theorem recipientList_shape {metadata : PyVal} {key : String} {l : List PyVal}
    (h : recipientList metadata key = .ok l) : ∀ v ∈ l, isRecipientShape v := by
  simp only [recipientList, bind_eq_ok] at h
  obtain ⟨src, _, items, _, hmap⟩ := h
  intro v hv
  obtain ⟨r, _, hfr⟩ := mapM_ok_mem hmap v hv
  exact formatRecipient_shape hfr

/- ---------------------------------------------------------------------------
Claims.
--------------------------------------------------------------------------- -/

/-- C1 (counterexample): the claim asserts the error message is always a
*non-empty* string.  When the external association capability raises an
exception whose message is empty (Python `str(Exception())` is `""`), the
operation returns the serialized object mapping "error" to the empty string:
no non-empty message exists for which the result is the corresponding error
object. -/
theorem C1_counterexample :
    get_company_activity cexAssoc cexDetail "+0000" "123" = errorString "" ∧
      errorString "" = "\x7b\"error\": \"\"\x7d" ∧
      ¬ ∃ m : String, m ≠ "" ∧
        get_company_activity cexAssoc cexDetail "+0000" "123" = errorString m := by
  refine ⟨rfl, rfl, ?_⟩
  rintro ⟨m, hm, he⟩
  have h0 : errorString m = errorString "" := by
    rw [← he]; rfl
  exact hm (errorString_inj_empty h0)

/-- C1 (amended): if the external CRM capability raises at any stage of
`get_company_activity` (association fetch, detail fetch, or parsing — that
is, whenever the `try` body `activityBody` fails with message `e`), the
operation does not raise past its own boundary (it is a total function) and
returns the JSON serialization of the object with the single key "error"
mapped to the exception's message — non-empty exactly when the message is —
and never the serialization of a list. -/
theorem C1_error_containment
    (assocFetch : String → Except String AssocResponse)
    (detailFetch : String → Except String PyVal) (off cid e : String)
    (h : activityBody assocFetch detailFetch off cid = .error e) :
    get_company_activity assocFetch detailFetch off cid = errorString e ∧
      dumps (.dict [("error", .str e)]) = .ok (errorString e) ∧
      ∀ (xs : List PyVal) (s : String), dumps (.list xs) = .ok s →
        get_company_activity assocFetch detailFetch off cid ≠ s := by
  refine ⟨get_company_activity_of_error h, rfl, ?_⟩
  intro xs s hs
  rw [get_company_activity_of_error h]
  exact errorString_ne_list_dump e hs

theorem C1_witness :
    activityBody assocBoom cexDetail "+0000" "123" = .error "boom" ∧
      get_company_activity assocBoom cexDetail "+0000" "123" = errorString "boom" :=
  ⟨rfl, (C1_error_containment assocBoom cexDetail "+0000" "123" "boom" rfl).1⟩

/-- C2: the Temporal Normalizer is idempotent: for every finite nested value
`v` (mappings, sequences, scalars including datetime and tzlocal values) and
any current-offset string `off`, normalizing twice equals normalizing once. -/
theorem C2_normalizer_idempotent (off : String) (v : PyVal) :
    convert_datetime_fields off (convert_datetime_fields off v) =
      convert_datetime_fields off v :=
  convert_idem off off v

/-- C3: for every engagement detail response whose engagement type is EMAIL
and whose formatting succeeds, the summary's content object contains every
one of the keys subject, from, to, cc, bcc, sender and body; and when the
metadata section is completely empty the content is exactly the all-defaults
object (empty strings / empty sequences) — never a missing key. -/
theorem C3_email_content_complete (resp out : PyVal)
    (h : formatEngagement resp = .ok out)
    (hty : engType resp = .ok (.str "EMAIL")) :
    ∃ c, out.lookup "content" = some c ∧
      ((c.lookup "subject").isSome = true ∧ (c.lookup "from").isSome = true ∧
       (c.lookup "to").isSome = true ∧ (c.lookup "cc").isSome = true ∧
       (c.lookup "bcc").isSome = true ∧ (c.lookup "sender").isSome = true ∧
       (c.lookup "body").isSome = true) ∧
      (resp.get "metadata" (.dict []) = .ok (.dict []) → c = emailEmptyDefault) := by
  obtain ⟨ed, md, sf, ty', c, hed, hmd, hsf, hty', hc, hout⟩ :=
    formatEngagement_ok_shape h
  simp only [engType, hed, ok_bind] at hty
  rw [hty'] at hty
  obtain rfl : ty' = PyVal.str "EMAIL" := (Except.ok.injEq _ _).mp hty
  obtain ⟨ec, hec, rfl⟩ := contentFor_email.mp hc
  obtain ⟨i, tyv, ca, lu, cb, mb, ts, assoc, htyv, rfl⟩ := sharedFields_ok_shape hsf
  subst hout
  refine ⟨ec, ?_, ?_, ?_⟩
  · simp [PyVal.lookup, lookupKey]
  · obtain ⟨subject, fr, fe, ff, fl, toL, ccL, bccL, se, tv, hv,
      hto, hcc, hbcc, htv, hhv, rfl⟩ := emailContent_ok_shape hec
    simp [PyVal.lookup, lookupKey]
  · intro hmdv
    rw [hmdv] at hmd
    obtain rfl : md = PyVal.dict [] := ((Except.ok.injEq _ _).mp hmd).symm
    have h1 : emailContent (PyVal.dict []) = .ok emailEmptyDefault := rfl
    rw [h1] at hec
    exact ((Except.ok.injEq _ _).mp hec).symm

theorem C3_witness :
    formatEngagement respEmailEmpty = .ok outEmailEmpty ∧
      engType respEmailEmpty = .ok (.str "EMAIL") ∧
      ∃ c, outEmailEmpty.lookup "content" = some c ∧
        ((c.lookup "subject").isSome = true ∧ (c.lookup "from").isSome = true ∧
         (c.lookup "to").isSome = true ∧ (c.lookup "cc").isSome = true ∧
         (c.lookup "bcc").isSome = true ∧ (c.lookup "sender").isSome = true ∧
         (c.lookup "body").isSome = true) ∧
        (respEmailEmpty.get "metadata" (.dict []) = .ok (.dict []) →
          c = emailEmptyDefault) :=
  ⟨rfl, rfl, C3_email_content_complete respEmailEmpty outEmailEmpty rfl rfl⟩

/-- C4: for every engagement detail response whose formatting succeeds and
whose engagement type is none of NOTE, EMAIL, TASK, MEETING, CALL
(case-sensitively), the emitted summary carries all eight shared fields and
contains no "content" key at all. -/
theorem C4_unknown_type_no_content (resp out ty : PyVal)
    (h : formatEngagement resp = .ok out)
    (hty : engType resp = .ok ty)
    (hn : ty ∉ ([.str "NOTE", .str "EMAIL", .str "TASK", .str "MEETING",
      .str "CALL"] : List PyVal)) :
    out.lookup "content" = Option.none ∧
      ∀ k ∈ sharedKeyNames, (out.lookup k).isSome = true := by
  obtain ⟨ed, md, sf, ty', c, hed, hmd, hsf, hty', hc, hout⟩ :=
    formatEngagement_ok_shape h
  simp only [engType, hed, ok_bind] at hty
  rw [hty'] at hty
  obtain rfl : ty' = ty := (Except.ok.injEq _ _).mp hty
  simp only [List.mem_cons, List.mem_singleton, not_or] at hn
  obtain ⟨n1, n2, n3, n4, n5⟩ := hn
  rw [contentFor_unknown n1 n2 n3 n4 (by simpa using n5)] at hc
  obtain rfl : c = Option.none := ((Except.ok.injEq _ _).mp hc).symm
  obtain ⟨i, tyv, ca, lu, cb, mb, ts, assoc, htyv, rfl⟩ := sharedFields_ok_shape hsf
  subst hout
  constructor
  · simp [PyVal.lookup, lookupKey]
  · intro k hk
    simp only [sharedKeyNames, List.mem_cons, List.mem_singleton] at hk
    rcases hk with rfl | rfl | rfl | rfl | rfl | rfl | rfl | rfl | h8
    all_goals try simp [PyVal.lookup, lookupKey]
    cases h8

theorem C4_witness :
    formatEngagement respUnknown = .ok outUnknown ∧
      engType respUnknown = .ok (.str "UNKNOWN_X") ∧
      outUnknown.lookup "content" = Option.none ∧
      ∀ k ∈ sharedKeyNames, (outUnknown.lookup k).isSome = true :=
  ⟨rfl, rfl,
    C4_unknown_type_no_content respUnknown outUnknown (.str "UNKNOWN_X") rfl rfl
      (by simp)⟩

/-- C5: if the detail fetch or the formatting of any single engagement id
raises — after the ids before it hydrated fine — the whole
`get_company_activity` call aborts: the result is the single serialized
error object carrying that exception's message, and it is not the
serialization of any list, so no partial list of the engagements formatted
before the failure is ever returned. -/
theorem C5_single_failure_aborts
    (assocFetch : String → Except String AssocResponse)
    (detailFetch : String → Except String PyVal) (off cid : String)
    (ar : AssocResponse) (pre : List String) (bad : String)
    (rest : List String) (e : String)
    (h1 : assocFetch cid = .ok ar)
    (h2 : engagementIds ar = pre ++ bad :: rest)
    (h3 : ∀ x ∈ pre, ∃ v, fetchAndFormat detailFetch x = .ok v)
    (h4 : fetchAndFormat detailFetch bad = .error e) :
    get_company_activity assocFetch detailFetch off cid = errorString e ∧
      ∀ (xs : List PyVal) (s : String), dumps (.list xs) = .ok s →
        get_company_activity assocFetch detailFetch off cid ≠ s := by
  have hbody : activityBody assocFetch detailFetch off cid = .error e := by
    unfold activityBody
    rw [h1, ok_bind, h2, mapM_error_of_first h4 pre h3, error_bind]
  refine ⟨get_company_activity_of_error hbody, ?_⟩
  intro xs s hs
  rw [get_company_activity_of_error hbody]
  exact errorString_ne_list_dump e hs

theorem C5_witness :
    fetchAndFormat detailBoomB "b" = .error "boom" ∧
      get_company_activity assocAB detailBoomB "+0000" "1" = errorString "boom" :=
  ⟨rfl,
    (C5_single_failure_aborts assocAB detailBoomB "+0000" "1"
      ⟨some [⟨"a"⟩, ⟨"b"⟩]⟩ ["a"] "b" [] "boom" rfl rfl
      (by intro x hx; simp at hx; subst hx; exact ⟨_, rfl⟩) rfl).1⟩

/-- C6: for every company id, when the association response exposes no
results collection, or its results collection is empty,
`get_company_activity` returns the serialized empty list "[]", not an error
object. -/
theorem C6_zero_links_empty_list
    (assocFetch : String → Except String AssocResponse)
    (detailFetch : String → Except String PyVal) (off cid : String)
    (ar : AssocResponse) (h1 : assocFetch cid = .ok ar)
    (h2 : ar.results = Option.none ∨ ar.results = some []) :
    get_company_activity assocFetch detailFetch off cid = "[]" := by
  have hids : engagementIds ar = [] := by
    rcases h2 with h | h <;> simp [engagementIds, h]
  unfold get_company_activity activityBody
  rw [h1, ok_bind, hids, List.mapM_nil]
  rfl

theorem C6_witness :
    assocNoResults "42" = .ok ⟨Option.none⟩ ∧
      get_company_activity assocNoResults cexDetail "+0000" "42" = "[]" :=
  ⟨rfl,
    C6_zero_links_empty_list assocNoResults cexDetail "+0000" "42"
      ⟨Option.none⟩ rfl (Or.inl rfl)⟩

/-- C7 (counterexample): the claim asserts the recipient objects carry the
attributes `first_name` and `last_name`.  The EMAIL branch builds recipient
dicts whose keys are `firstName` and `lastName` (camelCase), with the source
values passed through untouched: for a concrete EMAIL engagement the first
built `to` element has no `first_name` or `last_name` key at all, and the
second carries a non-string `raw` value. -/
theorem C7_counterexample :
    formatEngagement respRecipient = .ok outRecipient ∧
      ((outRecipient.lookup "content").getD .none).lookup "to" =
        some (.list [builtRecipient, builtRecipient2]) ∧
      builtRecipient.lookup "first_name" = Option.none ∧
      builtRecipient.lookup "last_name" = Option.none ∧
      builtRecipient.lookup "firstName" = some (.str "Ann") ∧
      builtRecipient.lookup "lastName" = some (.str "") ∧
      builtRecipient2.lookup "raw" = some (.int 5) ∧
      ∀ s : String, builtRecipient2.lookup "raw" ≠ some (.str s) := by
  refine ⟨rfl, rfl, rfl, rfl, rfl, rfl, rfl, ?_⟩
  intro s
  simp [builtRecipient2, PyVal.lookup, lookupKey]

/-- C7 (amended): in every successfully built EMAIL content, the `from`
object and every element of the `to`, `cc` and `bcc` sequences is a dict
with exactly the keys `raw`, `email`, `firstName`, `lastName` (camelCase, as
the code writes them; absent source fields default to the empty string), and
each sequence is the order-preserving image of the source recipient entries
under `formatRecipient` (so it preserves source API order and may be
empty). -/
theorem C7_recipient_shape (metadata c : PyVal)
    (h : emailContent metadata = .ok c) :
    ∃ fromV toL ccL bccL,
      c.lookup "from" = some fromV ∧ isRecipientShape fromV ∧
      c.lookup "to" = some (.list toL) ∧ c.lookup "cc" = some (.list ccL) ∧
      c.lookup "bcc" = some (.list bccL) ∧
      (∀ v ∈ toL, isRecipientShape v) ∧ (∀ v ∈ ccL, isRecipientShape v) ∧
      (∀ v ∈ bccL, isRecipientShape v) ∧
      recipientList metadata "to" = .ok toL ∧
      recipientList metadata "cc" = .ok ccL ∧
      recipientList metadata "bcc" = .ok bccL := by
  obtain ⟨subject, fr, fe, ff, fl, toL, ccL, bccL, se, tv, hv,
    hto, hcc, hbcc, htv, hhv, rfl⟩ := emailContent_ok_shape h
  refine ⟨.dict [("raw", fr), ("email", fe), ("firstName", ff), ("lastName", fl)],
    toL, ccL, bccL, ?_, ⟨fr, fe, ff, fl, rfl⟩, ?_, ?_, ?_,
    recipientList_shape hto, recipientList_shape hcc, recipientList_shape hbcc,
    hto, hcc, hbcc⟩ <;>
  simp [PyVal.lookup, lookupKey]

theorem C7_witness :
    emailContent (.dict []) = .ok emailEmptyDefault ∧
      ∃ fromV toL ccL bccL,
        emailEmptyDefault.lookup "from" = some fromV ∧ isRecipientShape fromV ∧
        emailEmptyDefault.lookup "to" = some (.list toL) ∧
        emailEmptyDefault.lookup "cc" = some (.list ccL) ∧
        emailEmptyDefault.lookup "bcc" = some (.list bccL) ∧
        (∀ v ∈ toL, isRecipientShape v) ∧ (∀ v ∈ ccL, isRecipientShape v) ∧
        (∀ v ∈ bccL, isRecipientShape v) ∧
        recipientList (.dict []) "to" = .ok toL ∧
        recipientList (.dict []) "cc" = .ok ccL ∧
        recipientList (.dict []) "bcc" = .ok bccL :=
  ⟨rfl, C7_recipient_shape (.dict []) emailEmptyDefault rfl⟩

/-- C8 (counterexample): the claim asserts that building the shared fields is
total over *every* engagement detail response.  For the concrete response
whose `engagement` section is the string "oops" rather than a mapping, the
field reads raise `AttributeError` (caught only by the operation-level
handler), so the build is not total. -/
theorem C8_counterexample :
    PyVal.get respBadEngagement "engagement" (.dict []) = .ok (.str "oops") ∧
      sharedFields respBadEngagement (.str "oops") =
        .error "AttributeError: object has no attribute get" ∧
      formatEngagement respBadEngagement =
        .error "AttributeError: object has no attribute get" :=
  ⟨rfl, rfl, rfl⟩

/-- C8 (amended): building the shared fields is total over every engagement
detail response that is a mapping whose `engagement` section is a mapping:
for all such responses the build succeeds, each of id, type, created_at,
last_updated, created_by, modified_by and timestamp whose source key is
missing yields null, associations defaults to the empty mapping, and no
error is raised for a missing key. -/
theorem C8_shared_fields_total (kvs ed : List (String × PyVal)) :
    ∃ sf, sharedFields (.dict kvs) (.dict ed) = .ok sf ∧
      (lookupKey ed "id" = Option.none → lookupKey sf "id" = some .none) ∧
      (lookupKey ed "type" = Option.none → lookupKey sf "type" = some .none) ∧
      (lookupKey ed "createdAt" = Option.none →
        lookupKey sf "created_at" = some .none) ∧
      (lookupKey ed "lastUpdated" = Option.none →
        lookupKey sf "last_updated" = some .none) ∧
      (lookupKey ed "createdBy" = Option.none →
        lookupKey sf "created_by" = some .none) ∧
      (lookupKey ed "modifiedBy" = Option.none →
        lookupKey sf "modified_by" = some .none) ∧
      (lookupKey ed "timestamp" = Option.none →
        lookupKey sf "timestamp" = some .none) ∧
      (lookupKey kvs "associations" = Option.none →
        lookupKey sf "associations" = some (.dict [])) := by
  refine ⟨_, rfl, ?_, ?_, ?_, ?_, ?_, ?_, ?_, ?_⟩ <;>
    intro h <;> simp [lookupKey, h]

theorem C8_witness :
    ∃ sf, sharedFields (.dict []) (.dict []) = .ok sf ∧
      (lookupKey [] "id" = Option.none → lookupKey sf "id" = some .none) ∧
      (lookupKey [] "type" = Option.none → lookupKey sf "type" = some .none) ∧
      (lookupKey [] "createdAt" = Option.none →
        lookupKey sf "created_at" = some .none) ∧
      (lookupKey [] "lastUpdated" = Option.none →
        lookupKey sf "last_updated" = some .none) ∧
      (lookupKey [] "createdBy" = Option.none →
        lookupKey sf "created_by" = some .none) ∧
      (lookupKey [] "modifiedBy" = Option.none →
        lookupKey sf "modified_by" = some .none) ∧
      (lookupKey [] "timestamp" = Option.none →
        lookupKey sf "timestamp" = some .none) ∧
      (lookupKey [] "associations" = Option.none →
        lookupKey sf "associations" = some (.dict [])) :=
  C8_shared_fields_total [] []

/-- C9 (counterexample): the claim asserts the EMAIL body is metadata.text
whenever metadata.text is present.  For the concrete metadata where `text` is
present but empty and `html` is "h", the built body is "h", not the present
`text` value "": the code tests truthiness, not presence. -/
theorem C9_counterexample :
    emailContent mdEmptyText = .ok outEmptyText ∧
      mdEmptyText.lookup "text" = some (.str "") ∧
      outEmptyText.lookup "body" = some (.str "h") ∧
      outEmptyText.lookup "body" ≠ some (.str "") := by
  refine ⟨rfl, rfl, rfl, ?_⟩
  simp [outEmptyText, PyVal.lookup, lookupKey]

/-- C9 (amended): for every EMAIL engagement whose content is built, the body
is metadata.text when that value is truthy (for strings: non-empty), and
otherwise falls back to metadata.html (each read with empty-string default,
so the body defaults to the empty string when both are absent); in
particular a present-but-falsy metadata.text is skipped in favor of
metadata.html. -/
theorem C9_body_text_or_html (metadata c : PyVal)
    (h : emailContent metadata = .ok c) :
    ∃ t hv, metadata.get "text" (.str "") = .ok t ∧
      metadata.get "html" (.str "") = .ok hv ∧
      c.lookup "body" = some (if pyTruthy t then t else hv) := by
  obtain ⟨subject, fr, fe, ff, fl, toL, ccL, bccL, se, tv, hvv,
    hto, hcc, hbcc, htv, hhv, rfl⟩ := emailContent_ok_shape h
  exact ⟨tv, hvv, htv, hhv, by simp [PyVal.lookup, lookupKey]⟩

theorem C9_witness :
    emailContent mdWithText = .ok outWithText ∧
      ∃ t hv, mdWithText.get "text" (.str "") = .ok t ∧
        mdWithText.get "html" (.str "") = .ok hv ∧
        outWithText.lookup "body" = some (if pyTruthy t then t else hv) :=
  ⟨rfl, C9_body_text_or_html mdWithText outWithText rfl⟩

/-- C10: the Temporal Normalizer returns every string scalar unchanged — in
particular a string that textually resembles an ISO-8601 timestamp, such as
"2024-01-01T00:00:00Z", passes through identically; only actual datetime and
tzlocal instances are transformed, so timestamp strings from deserialized
API JSON are not re-transformed. -/
theorem C10_strings_pass_through (off : String) :
    (∀ s : String, convert_datetime_fields off (.str s) = .str s) ∧
      convert_datetime_fields off (.str "2024-01-01T00:00:00Z") =
        .str "2024-01-01T00:00:00Z" :=
  ⟨fun _ => rfl, rfl⟩
